import Mathlib

/-!
# Verification of the geohealthaccess modeling pipeline

Shallow embedding of `geohealthaccess/modeling.py` and proofs about it.

The per-cell computations of the pipeline stages are embedded as pure
functions over ℚ; NumPy float64 division (which can produce `inf`/`nan`
on division by zero) is embedded by the `FloatVal` type.  The
cost-distance engine itself is delegated by `compute_traveltime` to
external backends (WhiteboxTools `cost_distance`, GRASS `r.cost` /
`r.walk`), so it is modelled from the specification; every other
definition is translated directly from the source.
-/

/-! ## Speed table (`get_segment_speed`, modeling.py lines 18-57) -/

/-- The `network_speeds` JSON table: a base speed per `highway` category and
quality multipliers per `tracktype`, `smoothness` and `surface` tag. -/
structure NetworkSpeeds where
  highway : List (String × ℚ)
  tracktype : List (String × ℚ)
  smoothness : List (String × ℚ)
  surface : List (String × ℚ)

/-- Python `network_speeds[table].get(tag, 1)`: a missing tag (`None`) or a
tag that is not a key of the table falls back to the multiplier 1. -/
def tagMult (table : List (String × ℚ)) (tag : Option String) : ℚ :=
  match tag with
  | none => 1
  | some t =>
    match table.lookup t with
    | some m => m
    | none => 1

/-- `get_segment_speed`: `None` when the `highway` category is not in the
table, otherwise `base_speed * min(tracktype, smoothness, surface)`. -/
def get_segment_speed (highway : String) (tracktype smoothness surface : Option String)
    (ns : NetworkSpeeds) : Option ℚ :=
  match ns.highway.lookup highway with
  | none => none
  | some base =>
    some (base * min (tagMult ns.tracktype tracktype)
      (min (tagMult ns.smoothness smoothness) (tagMult ns.surface surface)))

/-- A concrete speed table used to instantiate the spec's worked example:
category `"primary"` has base speed 80, and the three quality tables hold
multipliers 1/2, 1 and 4/5. -/
def exampleSpeeds : NetworkSpeeds :=
  ⟨[("primary", 80)], [("grade3", 1/2)], [("good", 1)], [("unpaved", 4/5)]⟩

/-! ## Road speed rasterizer (`speed_from_roads`, modeling.py lines 60-128) -/

/-- One entry of the `shapes` list passed to `rasterio.features.rasterize`:
the set of grid cells the line geometry touches (`all_touched=True`) and the
burned-in value `int(speed)`. -/
structure Shape where
  cells : List (ℤ × ℤ)
  value : ℤ

/-- `rasterize(shapes, fill=...)`: every cell touched by a geometry receives
that geometry's value, later shapes overwriting earlier ones; a cell touched
by no geometry keeps the `fill` value. -/
def rasterize (shapes : List Shape) (fill : ℤ) (p : ℤ × ℤ) : ℤ :=
  shapes.foldl (fun acc sh => if p ∈ sh.cells then sh.value else acc) fill

/-- `speed_from_roads` calls `rasterize` with `fill=0`. -/
def speed_from_roads_fill : ℤ := 0

/-- `speed_from_roads` writes its output profile with `nodata=255`. -/
def speed_from_roads_nodata : ℤ := 255

/-- One row of the road-network GeoDataFrame: the OSM tags and the grid
cells touched by the row's line geometry. -/
structure RoadRow where
  highway : String
  tracktype : Option String
  smoothness : Option String
  surface : Option String
  cells : List (ℤ × ℤ)

/-- Python `int()` truncation toward zero of a rational. -/
def intTrunc (q : ℚ) : ℤ := q.num.tdiv q.den

/-- The `shapes` list built by `speed_from_roads`: for each row the resolved
segment speed is computed, and the row is appended only when the Python
truthiness test `if speed:` passes, i.e. the speed is neither `None` nor 0. -/
def buildShapes (rows : List RoadRow) (ns : NetworkSpeeds) : List Shape :=
  rows.filterMap (fun row =>
    match get_segment_speed row.highway row.tracktype row.smoothness row.surface ns with
    | none => none
    | some sp => if sp = 0 then none else some ⟨row.cells, intTrunc sp⟩)

/-! ## Land-cover speed compositor (`speed_from_landcover`, lines 131-184,
and `land_cover_speed`, lines 239-292) -/

/-- Per-cell computation of `speed_from_landcover`: the blend
`Σ (coverfraction / 100) * landcover_speeds[class]` over the bands, then the
surface-water override `speed[surface_water >= 2] = 0`.  The band values are
used as read; no nodata test appears in the source. -/
def speed_from_landcover_cell (classes : List (String × ℚ)) (landcover_speeds : String → ℚ)
    (surface_water : ℚ) : ℚ :=
  let sp := classes.foldl (fun acc kc => acc + kc.2 / 100 * landcover_speeds kc.1) 0
  if 2 ≤ surface_water then 0 else sp

/-- Per-cell computation of `land_cover_speed`: the same blend over the
layer files, followed by `speed_raster[coverfraction == nodata] = -1` where
`coverfraction` is the loop variable left over from the last layer and
`nodata` is read from the first layer's profile. -/
def land_cover_speed_cell (layers : List (String × ℚ)) (landcover_speeds : String → ℚ)
    (nodata : ℚ) : ℚ :=
  let sp := layers.foldl (fun acc kv => acc + kv.2 / 100 * landcover_speeds kv.1) 0
  match layers.getLast? with
  | some last => if last.2 = nodata then -1 else sp
  | none => sp

/-! ## Speed combiner (`combine_speed_rasters`, modeling.py lines 187-215) -/

/-- Per-cell computation of `combine_speed_rasters`:
`speed = max(land, road); speed[speed < 0] = src_land.nodata`.  The nodata
sentinel written over negative results is the one of the first (land cover)
input raster. -/
def combine_speed_cell (nodata_land : ℚ) (land road : ℚ) : ℚ :=
  let sp := max land road
  if sp < 0 then nodata_land else sp

/-! ## Friction converter (`compute_friction`, modeling.py lines 218-236) -/

/-- A NumPy float64 value: a finite rational, an infinity, or `nan`. -/
inductive FloatVal where
  | fin : ℚ → FloatVal
  | pinf : FloatVal
  | ninf : FloatVal
  | nan : FloatVal
deriving DecidableEq

/-- NumPy float64 division of finite values: division by zero produces
`±inf` (or `nan` for `0/0`), otherwise the exact quotient. -/
def fdiv (a b : ℚ) : FloatVal :=
  if b = 0 then
    if a = 0 then .nan else if 0 < a then .pinf else .ninf
  else .fin (a / b)

/-- `np.isinf`. -/
def FloatVal.isinf : FloatVal → Bool
  | pinf => true
  | ninf => true
  | _ => false

/-- Per-cell computation of `compute_friction`: `speed /= 3.6`;
`time_to_cross = diag_distance / speed`; then the three masks in source
order: `time_to_cross[speed == 0] = max_time`,
`time_to_cross[np.isinf(time_to_cross)] = max_time`,
`time_to_cross[time_to_cross > max_time] = max_time`.
`diag` stands for `sqrt(xres*xres + yres*yres)`, passed in as a rational. -/
def time_to_cross (diag max_time speed : ℚ) : FloatVal :=
  let s := speed / (3.6 : ℚ)
  let t := fdiv diag s
  let t1 := if s = 0 then FloatVal.fin max_time else t
  let t2 := if t1.isinf then FloatVal.fin max_time else t1
  match t2 with
  | .fin q => if max_time < q then .fin max_time else .fin q
  | v => v

/-! ## Pipeline stages as artifact producers (idempotence convention)

Each `*_run` function takes the possibly already existing output artifact
(`existing = some out` when `os.path.isfile(dst_filename)` holds) and the
stage inputs, mirroring which stages return early on an existing output. -/

/-- `speed_from_roads` (lines 89-90): returns `dst_filename` untouched when
the output file exists, otherwise rasterizes the shapes over the grid. -/
def speed_from_roads_run (existing : Option (List ℤ)) (shapes : List Shape)
    (cells : List (ℤ × ℤ)) : List ℤ :=
  match existing with
  | some out => out
  | none => cells.map (rasterize shapes speed_from_roads_fill)

/-- `speed_from_landcover` (lines 157-158): returns the existing output
untouched when present, otherwise composites every cell. -/
def speed_from_landcover_run (existing : Option (List ℚ))
    (cells : List (List (String × ℚ) × ℚ)) (landcover_speeds : String → ℚ) : List ℚ :=
  match existing with
  | some out => out
  | none => cells.map (fun cw => speed_from_landcover_cell cw.1 landcover_speeds cw.2)

/-- `combine_speed_rasters` (lines 187-215): no existing-output test appears
in the source; the stage always recomputes and overwrites. -/
def combine_speed_rasters_run (existing : Option (List ℚ)) (nodata_land : ℚ)
    (land road : List ℚ) : List ℚ :=
  List.zipWith (combine_speed_cell nodata_land) land road

/-- `compute_friction` (lines 218-236): no existing-output test appears in
the source; the stage always recomputes and overwrites. -/
def compute_friction_run (existing : Option (List FloatVal)) (diag max_time : ℚ)
    (speeds : List ℚ) : List FloatVal :=
  speeds.map (time_to_cross diag max_time)

/-! ## Target raster preparation (`compute_traveltime`, lines 398-437) -/

/-- The three cost-distance methods accepted by `compute_traveltime`. -/
inductive CDMethod where
  | whitebox
  | rcost
  | rwalk
deriving DecidableEq

/-- Per-pixel preparation of the target (source points) raster before the
shortest-path computation: the GRASS branch runs
`r.null map=target setnull=0` turning every zero pixel into null, while the
whitebox branch passes `src_target` to `wbt.cost_distance` unmodified. -/
def prepare_target (method : CDMethod) (v : ℤ) : Option ℤ :=
  match method with
  | .whitebox => some v
  | .rcost => if v = 0 then none else some v
  | .rwalk => if v = 0 then none else some v

/-! ## Cost-distance engine

Modelled from the spec: `compute_traveltime` delegates the shortest-path
computation itself to external backends (WhiteboxTools `cost_distance`,
GRASS `r.cost` / `r.walk`) whose code is not part of this repository, so
the engine is modelled from the specification's §4.5: an 8-connected grid
graph over the friction raster, edge weight `(friction[A] + friction[B]) / 2`
for orthogonal neighbors and the same times `sqrt 2` for diagonal ones,
multi-source shortest-path costs, and the lowest-source-identifier
tie-break.  Costs live in the ring ℚ + ℚ·√2, represented exactly by `Q2`. -/

/-- An exact cost value `a + b * sqrt 2`. -/
structure Q2 where
  a : ℚ
  b : ℚ
deriving DecidableEq

/-- The real number represented by a `Q2` value. -/
noncomputable def Q2.toReal (x : Q2) : ℝ := (x.a : ℝ) + (x.b : ℝ) * Real.sqrt 2

/-- Addition of cost values. -/
def Q2.add (x y : Q2) : Q2 := ⟨x.a + y.a, x.b + y.b⟩

/-- Decidable comparison of cost values: `x ≤ y` in the real order, decided
by sign analysis of `(y.a - x.a) + (y.b - x.b) * sqrt 2`. -/
def Q2.ble (x y : Q2) : Bool :=
  let p := y.a - x.a
  let q := y.b - x.b
  if 0 ≤ q then
    if 0 ≤ p then true else decide (p ^ 2 ≤ 2 * q ^ 2)
  else
    if 0 ≤ p then decide (2 * q ^ 2 ≤ p ^ 2) else false

/-- Minimum of two optional costs; `none` is "unreached" and counts as
infinite. -/
def optMin (x y : Option Q2) : Option Q2 :=
  match x, y with
  | none, v => v
  | v, none => v
  | some u, some v => if Q2.ble u v then some u else some v

/-- The eight neighbor offsets of a grid cell, flagged diagonal or not. -/
def offsets : List (ℤ × ℤ × Bool) :=
  [(-1, -1, true), (-1, 0, false), (-1, 1, true),
   (0, -1, false), (0, 1, false),
   (1, -1, true), (1, 0, false), (1, 1, true)]

/-- Bounds test for a W×H grid (row index first). -/
def inGrid (W H : ℕ) (p : ℤ × ℤ) : Bool :=
  decide (0 ≤ p.1) && decide (p.1 < (H : ℤ)) && decide (0 ≤ p.2) && decide (p.2 < (W : ℤ))

/-- Edge weight between neighboring cells `u` and `v`:
`(friction u + friction v) / 2`, times `sqrt 2` when diagonal. -/
def edgeWeight (f : ℤ × ℤ → ℚ) (u v : ℤ × ℤ) (diag : Bool) : Q2 :=
  if diag then ⟨0, (f u + f v) / 2⟩ else ⟨(f u + f v) / 2, 0⟩

/-- Lookup into a row-major grid of tentative costs. -/
def getD (d : List (List (Option Q2))) (p : ℤ × ℤ) : Option Q2 :=
  if 0 ≤ p.1 ∧ 0 ≤ p.2 then
    match d.get? p.1.toNat with
    | some row =>
      match row.get? p.2.toNat with
      | some v => v
      | none => none
    | none => none
  else none

/-- One relaxation of a cell: the minimum of its current tentative cost and
`cost[neighbor] + edgeWeight(neighbor, cell)` over its in-grid neighbors. -/
def relaxCell (f : ℤ × ℤ → ℚ) (W H : ℕ) (d : List (List (Option Q2))) (p : ℤ × ℤ) :
    Option Q2 :=
  offsets.foldl
    (fun acc o =>
      let n : ℤ × ℤ := (p.1 + o.1, p.2 + o.2.1)
      if inGrid W H n then
        optMin acc ((getD d n).map (fun q => q.add (edgeWeight f n p o.2.2)))
      else acc)
    (getD d p)

/-- One simultaneous relaxation sweep over the whole grid. -/
def bfStep (f : ℤ × ℤ → ℚ) (W H : ℕ) (d : List (List (Option Q2))) :
    List (List (Option Q2)) :=
  (List.range H).map (fun r => (List.range W).map (fun c =>
    relaxCell f W H d ((r : ℤ), (c : ℤ))))

/-- The seed grid of a single source: cost 0 at the source cell, unreached
everywhere else. -/
def bfInit (W H : ℕ) (s : ℤ × ℤ) : List (List (Option Q2)) :=
  (List.range H).map (fun r => (List.range W).map (fun c =>
    if ((r : ℤ), (c : ℤ)) = s then some ⟨0, 0⟩ else none))

/-- Shortest-path cost from source cell `s` to cell `p`: `W * H` relaxation
sweeps, enough for any simple path on the grid. -/
def srcDist (f : ℤ × ℤ → ℚ) (W H : ℕ) (s : ℤ × ℤ) (p : ℤ × ℤ) : Option Q2 :=
  getD ((bfStep f W H)^[W * H] (bfInit W H s)) p

/-- Accumulated cost at cell `p`: the minimum over all sources. -/
def engineCost (f : ℤ × ℤ → ℚ) (W H : ℕ) (sources : List ((ℤ × ℤ) × ℕ)) (p : ℤ × ℤ) :
    Option Q2 :=
  (sources.map (fun s => srcDist f W H s.1 p)).foldl optMin none

/-- The least element of a list of source identifiers. -/
def leastId : List ℕ → Option ℕ
  | [] => none
  | i :: is => some (is.foldl Nat.min i)

/-- Nearest-source raster at cell `p`: among the sources whose cost at `p`
attains the accumulated minimum, the lowest identifier wins (spec §4.5
tie-break). -/
def engineNearest (f : ℤ × ℤ → ℚ) (W H : ℕ) (sources : List ((ℤ × ℤ) × ℕ)) (p : ℤ × ℤ) :
    Option ℕ :=
  match engineCost f W H sources p with
  | none => none
  | some q =>
    leastId ((sources.filter (fun s => decide (srcDist f W H s.1 p = some q))).map Prod.snd)

/-- Uniform friction of 10 seconds per cell, the spec's 3×3 example. -/
def ufric : ℤ × ℤ → ℚ := fun _ => 10

/-! ## Helper lemmas -/

theorem foldl_add_map_sum {α : Type} (g : α → ℚ) :
    ∀ (l : List α) (init : ℚ),
      l.foldl (fun acc x => acc + g x) init = init + (l.map g).sum
  | [], init => by simp
  | x :: xs, init => by
    simp only [List.foldl_cons, List.map_cons, List.sum_cons, foldl_add_map_sum g xs]
    ring

theorem rasterize_untouched (p : ℤ × ℤ) :
    ∀ (shapes : List Shape) (fill : ℤ), (∀ sh ∈ shapes, p ∉ sh.cells) →
      rasterize shapes fill p = fill
  | [], fill, _ => rfl
  | sh :: rest, fill, h => by
    have hn : p ∉ sh.cells := h sh (List.mem_cons_self sh rest)
    have hr : ∀ s ∈ rest, p ∉ s.cells := fun s hs => h s (List.mem_cons_of_mem sh hs)
    simp only [rasterize, List.foldl_cons, if_neg hn]
    exact rasterize_untouched p rest fill hr

/-! ## C2: friction conversion of degenerate speeds -/

/-- C2 counterexample: the claim says a negative speed is clamped to
`MAX_TIME`, but `compute_friction` at speed `-1` (with
`diag_distance = 5`, `max_time = 3600`) yields the negative finite friction
`-18`, not `3600`: none of the three masks (`speed == 0`, `isinf`,
`> max_time`) matches a negative quotient. -/
theorem compute_friction_negative_unclamped :
    time_to_cross 5 3600 (-1) = FloatVal.fin (-18) ∧
    FloatVal.fin (-18) ≠ FloatVal.fin 3600 := by
  constructor
  · norm_num [time_to_cross, fdiv, FloatVal.isinf]
  · simp only [ne_eq, FloatVal.fin.injEq]
    norm_num

/-- C2 amended: a zero speed maps to `MAX_TIME` and every output is a
finite value (never `inf` or `nan`), the masks being applied in the source
order; but a negative speed is not clamped — it produces the (negative)
finite friction `diag / (speed / 3.6)` unchanged. -/
theorem compute_friction_amended (diag max_time speed : ℚ)
    (hd : 0 ≤ diag) (hm : 0 ≤ max_time) :
    (speed = 0 → time_to_cross diag max_time speed = FloatVal.fin max_time) ∧
    (∃ q : ℚ, time_to_cross diag max_time speed = FloatVal.fin q) ∧
    (speed < 0 → time_to_cross diag max_time speed = FloatVal.fin (diag / (speed / 3.6))) := by
  have h36 : (3.6 : ℚ) ≠ 0 := by norm_num
  refine ⟨?_, ?_, ?_⟩
  · intro h
    simp only [time_to_cross, h, zero_div, fdiv, FloatVal.isinf, if_pos rfl]
    simp [lt_irrefl]
  · by_cases h : speed = 0
    · refine ⟨max_time, ?_⟩
      simp only [time_to_cross, h, zero_div, fdiv, FloatVal.isinf, if_pos rfl]
      simp [lt_irrefl]
    · have hs : speed / (3.6 : ℚ) ≠ 0 := div_ne_zero h h36
      simp only [time_to_cross, fdiv, if_neg hs, FloatVal.isinf]
      by_cases hc : max_time < diag / (speed / (3.6 : ℚ))
      · exact ⟨max_time, by simp [hc]⟩
      · exact ⟨diag / (speed / (3.6 : ℚ)), by simp [hc]⟩
  · intro h
    have hs : speed / (3.6 : ℚ) < 0 := div_neg_of_neg_of_pos h (by norm_num)
    have hs' : speed / (3.6 : ℚ) ≠ 0 := ne_of_lt hs
    have hq : diag / (speed / (3.6 : ℚ)) ≤ 0 :=
      div_nonpos_of_nonneg_of_nonpos hd (le_of_lt hs)
    have hc : ¬ max_time < diag / (speed / (3.6 : ℚ)) :=
      not_lt.mpr (le_trans hq hm)
    simp only [time_to_cross, fdiv, if_neg hs', FloatVal.isinf]
    simp [hc]

/-- C2 witness: the amended theorem applied at `diag = 5`,
`max_time = 3600`, `speed = -1`, all hypotheses discharged. -/
theorem compute_friction_amended_witness :
    time_to_cross 5 3600 (-1) = FloatVal.fin (5 / ((-1) / 3.6)) :=
  (compute_friction_amended 5 3600 (-1) (by norm_num) (by norm_num)).2.2 (by norm_num)

/-! ## C3: road segment speed resolution -/

/-- C3: segment speed resolution returns
`base_speed * min(tracktype, smoothness, surface)` when the `highway`
category is in the table and `None` (segment excluded) otherwise; each
multiplier defaults to 1 for an absent or unrecognized tag; category
`"primary"` with base speed 80 and multipliers 1/2, 1, 4/5 resolves to 40. -/
theorem get_segment_speed_spec (ns : NetworkSpeeds) (hw : String)
    (t sm su : Option String) :
    (∀ base : ℚ, ns.highway.lookup hw = some base →
      get_segment_speed hw t sm su ns =
        some (base * min (tagMult ns.tracktype t)
          (min (tagMult ns.smoothness sm) (tagMult ns.surface su)))) ∧
    (ns.highway.lookup hw = none → get_segment_speed hw t sm su ns = none) ∧
    (∀ table : List (String × ℚ), tagMult table none = 1) ∧
    (∀ (table : List (String × ℚ)) (tg : String), table.lookup tg = none →
      tagMult table (some tg) = 1) ∧
    get_segment_speed "primary" (some "grade3") (some "good") (some "unpaved")
      exampleSpeeds = some 40 := by
  refine ⟨?_, ?_, ?_, ?_, ?_⟩
  · intro base hb
    simp [get_segment_speed, hb]
  · intro hb
    simp [get_segment_speed, hb]
  · intro table
    rfl
  · intro table tg hg
    simp [tagMult, hg]
  · norm_num [get_segment_speed, tagMult, exampleSpeeds, List.lookup, min_def]

/-- C3 witness: the table branch of the theorem applied at the worked
example. -/
theorem get_segment_speed_spec_witness :
    get_segment_speed "primary" (some "grade3") (some "good") (some "unpaved")
      exampleSpeeds =
      some (80 * min (tagMult exampleSpeeds.tracktype (some "grade3"))
        (min (tagMult exampleSpeeds.smoothness (some "good"))
          (tagMult exampleSpeeds.surface (some "unpaved")))) :=
  (get_segment_speed_spec exampleSpeeds "primary" (some "grade3") (some "good")
    (some "unpaved")).1 80 (by norm_num [exampleSpeeds, List.lookup])

/-! ## C4: cells untouched by any road geometry -/

/-- C4 counterexample: the claim says untouched cells hold the nodata
sentinel, but `speed_from_roads` rasterizes with `fill=0` while its output
profile declares `nodata=255`: with no shapes at all, cell `(0, 0)` holds
the valid speed value 0, not the sentinel 255. -/
theorem speed_from_roads_untouched_zero :
    rasterize [] speed_from_roads_fill (0, 0) = 0 ∧
    speed_from_roads_nodata = 255 ∧
    rasterize [] speed_from_roads_fill (0, 0) ≠ speed_from_roads_nodata := by
  refine ⟨rfl, rfl, ?_⟩
  norm_num [rasterize, speed_from_roads_fill, speed_from_roads_nodata]

/-- C4 amended: every cell touched by no line geometry holds the fill
value 0, which is distinct from the raster's nodata sentinel 255. -/
theorem speed_from_roads_untouched_fill (shapes : List Shape) (p : ℤ × ℤ)
    (h : ∀ sh ∈ shapes, p ∉ sh.cells) :
    rasterize shapes speed_from_roads_fill p = speed_from_roads_fill ∧
    speed_from_roads_fill ≠ speed_from_roads_nodata := by
  refine ⟨rasterize_untouched p shapes speed_from_roads_fill h, ?_⟩
  norm_num [speed_from_roads_fill, speed_from_roads_nodata]

/-- C4 witness: the amended theorem at a shape touching only `(1, 1)` and
the untouched cell `(0, 0)`. -/
theorem speed_from_roads_untouched_fill_witness :
    rasterize [⟨[(1, 1)], 50⟩] speed_from_roads_fill (0, 0) = speed_from_roads_fill ∧
    speed_from_roads_fill ≠ speed_from_roads_nodata :=
  speed_from_roads_untouched_fill [⟨[(1, 1)], 50⟩] (0, 0) (by
    intro sh hsh
    simp only [List.mem_singleton] at hsh
    subst hsh
    simp)

/-! ## C5: land-cover speed blend with water override -/

/-- C5: the compositor outputs
`Σ_k (coverage_k / 100) * table[class_k]`, except that a persistent-water
value `≥ 2` forces the output to 0 regardless of the blend. -/
theorem speed_from_landcover_spec (classes : List (String × ℚ))
    (landcover_speeds : String → ℚ) (w : ℚ) :
    speed_from_landcover_cell classes landcover_speeds w =
      if 2 ≤ w then 0
      else (classes.map (fun kc => kc.2 / 100 * landcover_speeds kc.1)).sum := by
  unfold speed_from_landcover_cell
  rw [foldl_add_map_sum]
  simp

/-! ## C6: speed combiner algebra -/

/-- C6 counterexample: `combine_speed_rasters` substitutes the FIRST
input's nodata for negative maxima, so with cell values `-2`/`-3` and
nodata sentinels `-1`/`-5` the two argument orders give `-1` and `-5`
(commutativity fails), and on a raster holding `-2` with nodata `-1` the
combined value is `-1`, not `-2` (idempotence fails). -/
theorem combine_not_symmetric :
    combine_speed_cell (-1) (-2) (-3) = -1 ∧
    combine_speed_cell (-5) (-3) (-2) = -5 ∧
    combine_speed_cell (-1) (-2) (-3) ≠ combine_speed_cell (-5) (-3) (-2) ∧
    combine_speed_cell (-1) (-2) (-2) = -1 ∧
    combine_speed_cell (-1) (-2) (-2) ≠ -2 := by
  norm_num [combine_speed_cell, max_def]

/-- C6 amended: per cell the combiner takes `max` and maps negative
results to the first input's nodata; swapping the two cell values (with the
same first-input nodata) commutes, and combining a raster with itself is the
identity at every cell whose negative values coincide with that nodata. -/
theorem combine_speed_amended (n x y : ℚ) (h : x < 0 → x = n) :
    combine_speed_cell n x y = combine_speed_cell n y x ∧
    combine_speed_cell n x x = x ∧
    combine_speed_cell n x y = (if max x y < 0 then n else max x y) := by
  unfold combine_speed_cell
  refine ⟨by rw [max_comm], ?_, rfl⟩
  simp only [max_self]
  by_cases hx : x < 0
  · simp [hx, (h hx).symm]
  · simp [hx]

/-- C6 witness: the amended theorem at nodata `-1` and nonnegative cell
values 2 and 3. -/
theorem combine_speed_amended_witness :
    combine_speed_cell (-1) 2 3 = combine_speed_cell (-1) 3 2 ∧
    combine_speed_cell (-1) 2 2 = 2 ∧
    combine_speed_cell (-1) 2 3 = (if max 2 3 < 0 then (-1 : ℚ) else max 2 3) :=
  combine_speed_amended (-1) 2 3 (by norm_num)

/-! ## C7: nodata propagation through the compositor -/

/-- C7 counterexample: `speed_from_landcover` applies no nodata handling
at all — a band holding the input sentinel 255 at a cell is blended like an
ordinary percentage, giving `255/100 * 4 = 51/5`, not the output nodata
`-1`; and `land_cover_speed` masks only against the LAST layer's value, so
a first layer holding the sentinel with a valid last layer also escapes the
mask. -/
theorem landcover_nodata_not_propagated :
    speed_from_landcover_cell [("forest", 255)] (fun _ => 4) 0 = 51 / 5 ∧
    (51 / 5 : ℚ) ≠ -1 ∧
    land_cover_speed_cell [("bare", 255), ("forest", 50)] (fun _ => 4) 255 =
      255 / 100 * 4 + 50 / 100 * 4 ∧
    (255 / 100 * 4 + 50 / 100 * 4 : ℚ) ≠ -1 := by
  refine ⟨?_, by norm_num, ?_, by norm_num⟩
  · norm_num [speed_from_landcover_cell]
  · norm_num [land_cover_speed_cell, List.getLast?]

/-- C7 amended: `speed_from_landcover` propagates no nodata (its output is
always the plain blend or the water override), while `land_cover_speed`
writes the output nodata `-1` exactly at cells where the last-processed
layer's value equals the first layer's nodata sentinel. -/
theorem landcover_nodata_amended (layers : List (String × ℚ))
    (landcover_speeds : String → ℚ) (nodata : ℚ) (l : String × ℚ)
    (h : layers.getLast? = some l) :
    land_cover_speed_cell layers landcover_speeds nodata =
      (if l.2 = nodata then -1
       else (layers.map (fun kv => kv.2 / 100 * landcover_speeds kv.1)).sum) ∧
    (∀ (classes : List (String × ℚ)) (w : ℚ),
      speed_from_landcover_cell classes landcover_speeds w =
        if 2 ≤ w then 0
        else (classes.map (fun kc => kc.2 / 100 * landcover_speeds kc.1)).sum) := by
  constructor
  · unfold land_cover_speed_cell
    rw [h, foldl_add_map_sum]
    simp
  · intro classes w
    unfold speed_from_landcover_cell
    rw [foldl_add_map_sum]
    simp

/-- C7 witness: the amended theorem at the two-layer example, the
`getLast?` hypothesis discharged. -/
theorem landcover_nodata_amended_witness :
    land_cover_speed_cell [("bare", 255), ("forest", 50)] (fun _ => 4) 255 =
      (if (50 : ℚ) = 255 then -1
       else ([("bare", (255 : ℚ)), ("forest", 50)].map
         (fun kv => kv.2 / 100 * (fun _ => (4 : ℚ)) kv.1)).sum) :=
  (landcover_nodata_amended [("bare", 255), ("forest", 50)] (fun _ => 4) 255
    ("forest", 50) (by simp [List.getLast?])).1

/-! ## C8: exclusion of zero-valued source pixels -/

/-- C8 counterexample: the claim says every method excludes zero-valued
target pixels, but only the GRASS branch runs `r.null setnull=0`; the
whitebox branch hands the target raster to `wbt.cost_distance` unchanged,
so a zero pixel stays in the seed set. -/
theorem whitebox_zero_kept :
    prepare_target CDMethod.whitebox 0 = some 0 ∧ (some (0 : ℤ) ≠ none) := by
  exact ⟨rfl, by simp⟩

/-- C8 amended: for the GRASS methods (`r.cost`, `r.walk`) every zero
pixel is nulled before the shortest-path computation and nonzero pixels are
kept, while the whitebox method passes every pixel through unchanged. -/
theorem grass_zero_excluded (m : CDMethod) (v : ℤ) (h : m ≠ CDMethod.whitebox) :
    (v = 0 → prepare_target m v = none) ∧
    (v ≠ 0 → prepare_target m v = some v) ∧
    prepare_target CDMethod.whitebox v = some v := by
  cases m with
  | whitebox => exact absurd rfl h
  | rcost =>
    exact ⟨fun hv => by simp [prepare_target, hv],
      fun hv => by simp [prepare_target, hv], rfl⟩
  | rwalk =>
    exact ⟨fun hv => by simp [prepare_target, hv],
      fun hv => by simp [prepare_target, hv], rfl⟩

/-- C8 witness: the amended theorem at method `r.cost` and pixel value 0,
all hypotheses discharged. -/
theorem grass_zero_excluded_witness :
    prepare_target CDMethod.rcost 0 = none :=
  (grass_zero_excluded CDMethod.rcost 0 (by simp)).1 rfl

/-! ## C9: existing-output no-op convention -/

/-- C9 counterexample: `combine_speed_rasters` and `compute_friction`
contain no existing-output test — both recompute and overwrite even when
the output artifact exists, contradicting the claim that every stage is a
no-op in that case. -/
theorem combine_friction_stage_recompute :
    combine_speed_rasters_run (some [5]) (-1) [1] [2] = [2] ∧
    combine_speed_rasters_run (some [5]) (-1) [1] [2] ≠ [5] ∧
    compute_friction_run (some [FloatVal.fin 99]) 5 3600 [1] = [FloatVal.fin 18] ∧
    compute_friction_run (some [FloatVal.fin 99]) 5 3600 [1] ≠ [FloatVal.fin 99] := by
  have h1 : combine_speed_rasters_run (some [5]) (-1) [1] [2] = [2] := by
    norm_num [combine_speed_rasters_run, combine_speed_cell, max_def]
  have h2 : compute_friction_run (some [FloatVal.fin 99]) 5 3600 [1] = [FloatVal.fin 18] := by
    norm_num [compute_friction_run, time_to_cross, fdiv, FloatVal.isinf]
  refine ⟨h1, ?_, h2, ?_⟩
  · rw [h1]
    norm_num
  · rw [h2]
    simp only [ne_eq, List.cons.injEq, FloatVal.fin.injEq, and_true, not_and]
    norm_num

/-- C9 amended: only `speed_from_roads` and `speed_from_landcover` return
the existing artifact untouched; `combine_speed_rasters` and
`compute_friction` always perform the per-cell computation, whatever the
existing output. -/
theorem stage_skip_amended (out1 : List ℤ) (out2 : List ℚ)
    (shapes : List Shape) (cells : List (ℤ × ℤ))
    (cells2 : List (List (String × ℚ) × ℚ)) (landcover_speeds : String → ℚ)
    (ex1 : Option (List ℚ)) (n : ℚ) (land road : List ℚ)
    (ex2 : Option (List FloatVal)) (diag mt : ℚ) (sp : List ℚ) :
    speed_from_roads_run (some out1) shapes cells = out1 ∧
    speed_from_landcover_run (some out2) cells2 landcover_speeds = out2 ∧
    combine_speed_rasters_run ex1 n land road =
      List.zipWith (combine_speed_cell n) land road ∧
    compute_friction_run ex2 diag mt sp = sp.map (time_to_cross diag mt) :=
  ⟨rfl, rfl, rfl, rfl⟩

/-! ## C10: truthiness exclusion of zero-speed segments -/

/-- C10: a segment whose resolved speed is 0 is dropped by the Python
truthiness test `if speed:` exactly like one whose category is unrecognized
(`None`), and consequently every shape handed to `rasterize` stems from a
segment with a nonzero resolved speed. -/
theorem zero_speed_roads_excluded (rows : List RoadRow) (ns : NetworkSpeeds)
    (row : RoadRow) :
    (get_segment_speed row.highway row.tracktype row.smoothness row.surface ns = some 0 →
      buildShapes [row] ns = []) ∧
    (get_segment_speed row.highway row.tracktype row.smoothness row.surface ns = none →
      buildShapes [row] ns = []) ∧
    (∀ sh ∈ buildShapes rows ns, ∃ r ∈ rows, ∃ sp : ℚ,
      get_segment_speed r.highway r.tracktype r.smoothness r.surface ns = some sp ∧
      sp ≠ 0 ∧ sh = ⟨r.cells, intTrunc sp⟩) := by
  refine ⟨?_, ?_, ?_⟩
  · intro h
    simp [buildShapes, h]
  · intro h
    simp [buildShapes, h]
  · intro sh hsh
    rw [buildShapes, List.mem_filterMap] at hsh
    obtain ⟨r, hr, hf⟩ := hsh
    refine ⟨r, hr, ?_⟩
    cases hg : get_segment_speed r.highway r.tracktype r.smoothness r.surface ns with
    | none =>
      rw [hg] at hf
      simp at hf
    | some sp =>
      rw [hg] at hf
      have hf' : (if sp = 0 then none else some (⟨r.cells, intTrunc sp⟩ : Shape)) = some sh := hf
      by_cases hz : sp = 0
      · rw [if_pos hz] at hf'
        simp at hf'
      · rw [if_neg hz] at hf'
        exact ⟨sp, rfl, hz, (Option.some.inj hf').symm⟩

/-! ## Validation of the `Q2` cost representation

The engine's comparator agrees with the order of the represented real
numbers, and its addition with real addition. -/

theorem Q2.add_toReal (x y : Q2) : (Q2.add x y).toReal = x.toReal + y.toReal := by
  unfold Q2.add Q2.toReal
  push_cast
  ring

theorem Q2.ble_iff (x y : Q2) : Q2.ble x y = true ↔ x.toReal ≤ y.toReal := by
  have hS : (0 : ℝ) ≤ Real.sqrt 2 := Real.sqrt_nonneg 2
  have hSS : Real.sqrt 2 ^ 2 = 2 := Real.sq_sqrt (by norm_num)
  have key : x.toReal ≤ y.toReal ↔
      0 ≤ ((y.a - x.a : ℚ) : ℝ) + ((y.b - x.b : ℚ) : ℝ) * Real.sqrt 2 := by
    unfold Q2.toReal
    push_cast
    constructor <;> intro h <;> nlinarith [hS]
  rw [key]
  unfold Q2.ble
  by_cases h1 : 0 ≤ y.b - x.b
  · by_cases h2 : 0 ≤ y.a - x.a
    · simp only [h1, h2, if_true, true_iff]
      have hq : (0 : ℝ) ≤ ((y.b - x.b : ℚ) : ℝ) := by exact_mod_cast h1
      have hp : (0 : ℝ) ≤ ((y.a - x.a : ℚ) : ℝ) := by exact_mod_cast h2
      have := mul_nonneg hq hS
      linarith
    · simp only [h1, h2, if_true, if_false, decide_eq_true_eq]
      push_neg at h2
      have hq : (0 : ℝ) ≤ ((y.b - x.b : ℚ) : ℝ) := by exact_mod_cast h1
      have hp : ((y.a - x.a : ℚ) : ℝ) < 0 := by exact_mod_cast h2
      have hqs : (0 : ℝ) ≤ ((y.b - x.b : ℚ) : ℝ) * Real.sqrt 2 := mul_nonneg hq hS
      have hsq : (((y.b - x.b : ℚ) : ℝ) * Real.sqrt 2) ^ 2 = 2 * ((y.b - x.b : ℚ) : ℝ) ^ 2 := by
        rw [mul_pow, hSS]
        ring
      constructor
      · intro hle
        have h2q : ((y.a - x.a : ℚ) : ℝ) ^ 2 ≤ 2 * ((y.b - x.b : ℚ) : ℝ) ^ 2 := by
          exact_mod_cast hle
        nlinarith
      · intro hge
        have : ((y.a - x.a : ℚ) : ℝ) ^ 2 ≤ 2 * ((y.b - x.b : ℚ) : ℝ) ^ 2 := by
          nlinarith
        exact_mod_cast this
  · by_cases h2 : 0 ≤ y.a - x.a
    · simp only [h1, h2, if_true, if_false, decide_eq_true_eq]
      push_neg at h1
      have hq : ((y.b - x.b : ℚ) : ℝ) < 0 := by exact_mod_cast h1
      have hp : (0 : ℝ) ≤ ((y.a - x.a : ℚ) : ℝ) := by exact_mod_cast h2
      have hsq : (((y.b - x.b : ℚ) : ℝ) * Real.sqrt 2) ^ 2 = 2 * ((y.b - x.b : ℚ) : ℝ) ^ 2 := by
        rw [mul_pow, hSS]
        ring
      have hqs2 : ((y.b - x.b : ℚ) : ℝ) * Real.sqrt 2 ≤ 0 :=
        mul_nonpos_iff.mpr (Or.inr ⟨le_of_lt hq, hS⟩)
      constructor
      · intro hle
        have h2q : 2 * ((y.b - x.b : ℚ) : ℝ) ^ 2 ≤ ((y.a - x.a : ℚ) : ℝ) ^ 2 := by
          exact_mod_cast hle
        nlinarith
      · intro hge
        have hd : (0 : ℝ) ≤ ((y.a - x.a : ℚ) : ℝ) - ((y.b - x.b : ℚ) : ℝ) * Real.sqrt 2 := by
          linarith
        have hprod := mul_nonneg hge hd
        have : 2 * ((y.b - x.b : ℚ) : ℝ) ^ 2 ≤ ((y.a - x.a : ℚ) : ℝ) ^ 2 := by
          nlinarith [hprod, hsq]
        exact_mod_cast this
    · push_neg at h1 h2
      have hq : ((y.b - x.b : ℚ) : ℝ) < 0 := by exact_mod_cast h1
      have hp : ((y.a - x.a : ℚ) : ℝ) < 0 := by exact_mod_cast h2
      have hqs2 : ((y.b - x.b : ℚ) : ℝ) * Real.sqrt 2 ≤ 0 :=
        mul_nonpos_iff.mpr (Or.inr ⟨le_of_lt hq, hS⟩)
      have hlt : ((y.a - x.a : ℚ) : ℝ) + ((y.b - x.b : ℚ) : ℝ) * Real.sqrt 2 < 0 := by
        linarith
      rw [if_neg (not_le.mpr h1), if_neg (not_le.mpr h2)]
      exact ⟨fun hb => Bool.noConfusion hb, fun hge => absurd hge (not_le.mpr hlt)⟩

/-! ## C1: the cost-distance tie-break -/

theorem int_toNat_zero : Int.toNat 0 = 0 := rfl

theorem int_toNat_one : Int.toNat 1 = 1 := rfl

theorem int_toNat_two : Int.toNat 2 = 2 := rfl

set_option maxRecDepth 100000 in
set_option maxHeartbeats 2000000 in
theorem srcDist_corner_A : srcDist ufric 3 3 (0, 0) (1, 1) = some ⟨0, 10⟩ := by
  have h0 : bfInit 3 3 (0, 0) =
      [[some ⟨0, 0⟩, none, none], [none, none, none], [none, none, none]] := by
    norm_num [bfInit, List.range_succ, Prod.ext_iff]
  have h1 : bfStep ufric 3 3
      [[some ⟨0, 0⟩, none, none], [none, none, none], [none, none, none]] =
      [[some ⟨0, 0⟩, some ⟨10, 0⟩, none],
       [some ⟨10, 0⟩, some ⟨0, 10⟩, none],
       [none, none, none]] := by
    norm_num [bfStep, relaxCell, getD, optMin, offsets, inGrid, edgeWeight, ufric,
      Q2.ble, Q2.add, List.range_succ, int_toNat_zero, int_toNat_one, int_toNat_two,
      List.getElem?_cons_zero, List.getElem?_cons_succ, -List.getElem?_eq_getElem]
  have h2 : bfStep ufric 3 3
      [[some ⟨0, 0⟩, some ⟨10, 0⟩, none],
       [some ⟨10, 0⟩, some ⟨0, 10⟩, none],
       [none, none, none]] =
      [[some ⟨0, 0⟩, some ⟨10, 0⟩, some ⟨20, 0⟩],
       [some ⟨10, 0⟩, some ⟨0, 10⟩, some ⟨10, 10⟩],
       [some ⟨20, 0⟩, some ⟨10, 10⟩, some ⟨0, 20⟩]] := by
    norm_num [bfStep, relaxCell, getD, optMin, offsets, inGrid, edgeWeight, ufric,
      Q2.ble, Q2.add, List.range_succ, int_toNat_zero, int_toNat_one, int_toNat_two,
      List.getElem?_cons_zero, List.getElem?_cons_succ, -List.getElem?_eq_getElem]
  have h3 : bfStep ufric 3 3
      [[some ⟨0, 0⟩, some ⟨10, 0⟩, some ⟨20, 0⟩],
       [some ⟨10, 0⟩, some ⟨0, 10⟩, some ⟨10, 10⟩],
       [some ⟨20, 0⟩, some ⟨10, 10⟩, some ⟨0, 20⟩]] =
      [[some ⟨0, 0⟩, some ⟨10, 0⟩, some ⟨20, 0⟩],
       [some ⟨10, 0⟩, some ⟨0, 10⟩, some ⟨10, 10⟩],
       [some ⟨20, 0⟩, some ⟨10, 10⟩, some ⟨0, 20⟩]] := by
    norm_num [bfStep, relaxCell, getD, optMin, offsets, inGrid, edgeWeight, ufric,
      Q2.ble, Q2.add, List.range_succ, int_toNat_zero, int_toNat_one, int_toNat_two,
      List.getElem?_cons_zero, List.getElem?_cons_succ, -List.getElem?_eq_getElem]
  have e2 : (bfStep ufric 3 3)^[2]
      [[some ⟨0, 0⟩, none, none], [none, none, none], [none, none, none]] =
      [[some ⟨0, 0⟩, some ⟨10, 0⟩, some ⟨20, 0⟩],
       [some ⟨10, 0⟩, some ⟨0, 10⟩, some ⟨10, 10⟩],
       [some ⟨20, 0⟩, some ⟨10, 10⟩, some ⟨0, 20⟩]] := by
    rw [show (2 : ℕ) = 1 + 1 from rfl, Function.iterate_add_apply,
      Function.iterate_one, h1, h2]
  have hiter : (bfStep ufric 3 3)^[3 * 3] (bfInit 3 3 (0, 0)) =
      [[some ⟨0, 0⟩, some ⟨10, 0⟩, some ⟨20, 0⟩],
       [some ⟨10, 0⟩, some ⟨0, 10⟩, some ⟨10, 10⟩],
       [some ⟨20, 0⟩, some ⟨10, 10⟩, some ⟨0, 20⟩]] := by
    rw [h0, show (3 * 3 : ℕ) = 7 + 2 from rfl, Function.iterate_add_apply, e2,
      Function.iterate_fixed h3 7]
  unfold srcDist
  rw [hiter]
  norm_num [getD, int_toNat_one, List.getElem?_cons_zero, List.getElem?_cons_succ,
    -List.getElem?_eq_getElem]

set_option maxRecDepth 100000 in
set_option maxHeartbeats 2000000 in
theorem srcDist_corner_B : srcDist ufric 3 3 (2, 2) (1, 1) = some ⟨0, 10⟩ := by
  have h0 : bfInit 3 3 (2, 2) =
      [[none, none, none], [none, none, none], [none, none, some ⟨0, 0⟩]] := by
    norm_num [bfInit, List.range_succ, Prod.ext_iff]
  have h1 : bfStep ufric 3 3
      [[none, none, none], [none, none, none], [none, none, some ⟨0, 0⟩]] =
      [[none, none, none],
       [none, some ⟨0, 10⟩, some ⟨10, 0⟩],
       [none, some ⟨10, 0⟩, some ⟨0, 0⟩]] := by
    norm_num [bfStep, relaxCell, getD, optMin, offsets, inGrid, edgeWeight, ufric,
      Q2.ble, Q2.add, List.range_succ, int_toNat_zero, int_toNat_one, int_toNat_two,
      List.getElem?_cons_zero, List.getElem?_cons_succ, -List.getElem?_eq_getElem]
  have h2 : bfStep ufric 3 3
      [[none, none, none],
       [none, some ⟨0, 10⟩, some ⟨10, 0⟩],
       [none, some ⟨10, 0⟩, some ⟨0, 0⟩]] =
      [[some ⟨0, 20⟩, some ⟨10, 10⟩, some ⟨20, 0⟩],
       [some ⟨10, 10⟩, some ⟨0, 10⟩, some ⟨10, 0⟩],
       [some ⟨20, 0⟩, some ⟨10, 0⟩, some ⟨0, 0⟩]] := by
    norm_num [bfStep, relaxCell, getD, optMin, offsets, inGrid, edgeWeight, ufric,
      Q2.ble, Q2.add, List.range_succ, int_toNat_zero, int_toNat_one, int_toNat_two,
      List.getElem?_cons_zero, List.getElem?_cons_succ, -List.getElem?_eq_getElem]
  have h3 : bfStep ufric 3 3
      [[some ⟨0, 20⟩, some ⟨10, 10⟩, some ⟨20, 0⟩],
       [some ⟨10, 10⟩, some ⟨0, 10⟩, some ⟨10, 0⟩],
       [some ⟨20, 0⟩, some ⟨10, 0⟩, some ⟨0, 0⟩]] =
      [[some ⟨0, 20⟩, some ⟨10, 10⟩, some ⟨20, 0⟩],
       [some ⟨10, 10⟩, some ⟨0, 10⟩, some ⟨10, 0⟩],
       [some ⟨20, 0⟩, some ⟨10, 0⟩, some ⟨0, 0⟩]] := by
    norm_num [bfStep, relaxCell, getD, optMin, offsets, inGrid, edgeWeight, ufric,
      Q2.ble, Q2.add, List.range_succ, int_toNat_zero, int_toNat_one, int_toNat_two,
      List.getElem?_cons_zero, List.getElem?_cons_succ, -List.getElem?_eq_getElem]
  have e2 : (bfStep ufric 3 3)^[2]
      [[none, none, none], [none, none, none], [none, none, some ⟨0, 0⟩]] =
      [[some ⟨0, 20⟩, some ⟨10, 10⟩, some ⟨20, 0⟩],
       [some ⟨10, 10⟩, some ⟨0, 10⟩, some ⟨10, 0⟩],
       [some ⟨20, 0⟩, some ⟨10, 0⟩, some ⟨0, 0⟩]] := by
    rw [show (2 : ℕ) = 1 + 1 from rfl, Function.iterate_add_apply,
      Function.iterate_one, h1, h2]
  have hiter : (bfStep ufric 3 3)^[3 * 3] (bfInit 3 3 (2, 2)) =
      [[some ⟨0, 20⟩, some ⟨10, 10⟩, some ⟨20, 0⟩],
       [some ⟨10, 10⟩, some ⟨0, 10⟩, some ⟨10, 0⟩],
       [some ⟨20, 0⟩, some ⟨10, 0⟩, some ⟨0, 0⟩]] := by
    rw [h0, show (3 * 3 : ℕ) = 7 + 2 from rfl, Function.iterate_add_apply, e2,
      Function.iterate_fixed h3 7]
  unfold srcDist
  rw [hiter]
  norm_num [getD, int_toNat_one, List.getElem?_cons_zero, List.getElem?_cons_succ,
    -List.getElem?_eq_getElem]

/-- C1: when two sources reach a cell with exactly equal accumulated cost,
the nearest-source output assigns that cell the lower of the two source
identifiers; the engine is a deterministic function of the friction grid and
the source set, so the result does not depend on any queue iteration order.
(The 3×3 instance `nearest[center] = 1` is the witness theorem.) -/
theorem traveltime_tie_break (f : ℤ × ℤ → ℚ) (W H : ℕ) (s1 s2 : ℤ × ℤ)
    (i1 i2 : ℕ) (p : ℤ × ℤ) (q : Q2)
    (h1 : srcDist f W H s1 p = some q) (h2 : srcDist f W H s2 p = some q) :
    engineNearest f W H [(s1, i1), (s2, i2)] p = some (min i1 i2) := by
  have hc : engineCost f W H [(s1, i1), (s2, i2)] p = some q := by
    simp [engineCost, h1, h2, optMin]
  simp [engineNearest, hc, h1, h2, leastId, Nat.min_def, min_def]

/-- C1 witness: on the 3×3 uniform-friction grid with source id 1 at the
top-left corner and id 2 at the bottom-right corner, both sources reach the
center at cost `10 * sqrt 2` and the tie-break picks `nearest = 1`. -/
theorem traveltime_tie_break_witness :
    srcDist ufric 3 3 (0, 0) (1, 1) = some ⟨0, 10⟩ ∧
    srcDist ufric 3 3 (2, 2) (1, 1) = some ⟨0, 10⟩ ∧
    engineNearest ufric 3 3 [((0, 0), 1), ((2, 2), 2)] (1, 1) = some 1 :=
  ⟨srcDist_corner_A, srcDist_corner_B, by
    have h := traveltime_tie_break ufric 3 3 (0, 0) (2, 2) 1 2 (1, 1) ⟨0, 10⟩
      srcDist_corner_A srcDist_corner_B
    simpa using h⟩

/-- C10 witness: a row whose category `"path"` resolves to base speed 0 is
excluded from the shapes list, via the zero-speed branch of the theorem. -/
theorem zero_speed_roads_excluded_witness :
    buildShapes [⟨"path", none, none, none, [(0, 0)]⟩] ⟨[("path", 0)], [], [], []⟩ = [] :=
  (zero_speed_roads_excluded [] ⟨[("path", 0)], [], [], []⟩
    ⟨"path", none, none, none, [(0, 0)]⟩).1
    (by norm_num [get_segment_speed, tagMult, List.lookup])
